import Mathlib

/-!
Verification of the nvme-mi-dev device-side NVMe-MI responder.

The definitions below are a shallow embedding of the Rust sources:
`src/lib.rs` (subsystem data model), `src/nvme/mi/dev.rs` (dispatcher and
command handlers) and `src/wire/string.rs` (fixed-length string codec).
Machine integers are modelled as `Nat` (with explicit `% 2^w` over
`Nat` or `Int` where wrapping matters); fallible Rust paths return
`Except`/`Option`, and Rust panics (`panic!`, `assert!`, division by
zero, `clamp` with an inverted range) are modelled as `Option.none`.

Types that live in the crate's current `nvme.rs` / `nvme/mi.rs` module
(absent from the source tree; only an earlier revision of those files is
present) are modelled from the specification and are marked
`Modelled from the spec:` in their doc comments.
-/

namespace NvmeMiDev

/-! ## CRC-32-ISCSI (CRC-32C), reflected, init 0xFFFFFFFF, xorout 0xFFFFFFFF -/

/-- One bit-round of the reflected CRC-32C computation
(polynomial 0x1EDC6F41, reflected form 0x82F63B78). -/
def crcRound (crc : Nat) : Nat :=
  if crc &&& 1 = 1 then (crc >>> 1) ^^^ 0x82F63B78 else crc >>> 1

/-- Fold one message byte into the reflected CRC-32C state. -/
def crc32cByte (crc b : Nat) : Nat :=
  crcRound^[8] (crc ^^^ (b &&& 0xFF))

/-- CRC-32-ISCSI of a byte sequence, as used for the NVMe-MI integrity
check value (`const ISCSI` in `dev.rs`). -/
def crc32c (bs : List Nat) : Nat :=
  (bs.foldl crc32cByte 0xFFFFFFFF) ^^^ 0xFFFFFFFF

/-- Little-endian byte decomposition of a 32-bit value (`to_le_bytes`). -/
def toLeBytes4 (n : Nat) : List Nat :=
  [n &&& 0xFF, (n >>> 8) &&& 0xFF, (n >>> 16) &&& 0xFF, (n >>> 24) &&& 0xFF]

/-- The integrity check value of a message body: CRC-32C over the MCTP
lead byte `0x84` (type 4 with the IC bit) followed by the body, encoded
little-endian (`send_response` / `handle_async` in `dev.rs`). -/
def icvOf (body : List Nat) : List Nat :=
  toLeBytes4 (crc32c (0x84 :: body))

/-! ## Protocol status codes -/

/-- NVMe-MI response statuses used by the handlers (`ResponseStatus` in
the mi module; numeric values per spec section 4.6). -/
inductive ResponseStatus
  | success
  | internalError
  | invalidCommandOpcode
  | invalidParameter
  | invalidCommandSize
  | invalidCommandInputDataSize
deriving DecidableEq, Repr

/-- Wire value of a response status. -/
def ResponseStatus.id : ResponseStatus → Nat
  | .success => 0x00
  | .internalError => 0x02
  | .invalidCommandOpcode => 0x03
  | .invalidParameter => 0x04
  | .invalidCommandSize => 0x05
  | .invalidCommandInputDataSize => 0x06

/-! ## Data model (`src/lib.rs`) -/

/-- `MAX_CONTROLLERS` in `lib.rs`. -/
def MAX_CONTROLLERS : Nat := 2

/-- `MAX_NAMESPACES` in `lib.rs`. -/
def MAX_NAMESPACES : Nat := 4

/-- `u32::MAX`, the broadcast namespace identifier. -/
def u32Max : Nat := 4294967295

/-- `UnitKind` in `lib.rs`. -/
inductive UnitKind
  | kelvin
  | percent
deriving DecidableEq, Repr

/-- `OperatingRange<T>` in `lib.rs`. -/
structure OperatingRange where
  kind : UnitKind
  lower : Nat
  upper : Nat
deriving DecidableEq, Repr

/-- Modelled from the spec: `ControllerConfiguration` lives in the
crate's current `nvme.rs`, which is absent from the tree; the spec
(section 3, Controller) says only the `en` bit is modelled. -/
structure ControllerConfiguration where
  en : Bool
deriving DecidableEq, Repr

/-- `ControllerType` in `lib.rs`. -/
inductive ControllerType
  | ioController
  | discovery
  | administrative
deriving DecidableEq, Repr

/-- `ControllerError` in `lib.rs`. -/
inductive ControllerError
  | namespaceAlreadyAttached
  | namespaceNotAttached
  | namespaceAttachmentLimitExceeded
deriving DecidableEq, Repr

/-- `SubsystemError` in `lib.rs`. -/
inductive SubsystemError
  | controllerLimitExceeded
  | namespaceIdentifierUnavailable
deriving DecidableEq, Repr

/-- Modelled from the spec: bit position of `ControllerStatusFlags::Rdy`
within the controller status flag set (CSTS.RDY is bit 0). The flag set
itself is represented as a `Nat` bit mask. -/
def cstsRdyBit : Nat := 0

/-- `Controller` in `lib.rs`. Identity and health fields used by the
modelled handlers; `secondaries`, `lpa` and `lsaes` are omitted because
no operation verified here reads them. -/
structure Controller where
  id : Nat
  cntrltype : ControllerType
  port : Nat
  active_ns : List Nat
  temp : Nat
  temp_range : OperatingRange
  capacity : Nat
  spare : Nat
  spare_range : OperatingRange
  write_age : Nat
  write_lifespan : Nat
  ro : Bool
  cc : ControllerConfiguration
  csts : Nat
deriving DecidableEq, Repr

/-- `PcieLinkSpeed` (mi module): only the distinction from `Inactive`
matters to the modelled handlers. -/
inductive PcieLinkSpeed
  | inactive
  | gts2p5
  | gts5
  | gts8
  | gts16
  | gts32
  | gts64
deriving DecidableEq, Repr

/-- `PciePort` in `lib.rs` (fields used by the modelled handlers). -/
structure PciePort where
  b : Nat
  d : Nat
  f : Nat
  seg : Nat
  cls : PcieLinkSpeed
deriving DecidableEq, Repr

/-- `PortType` in `lib.rs`. The `TwoWire` payload is omitted because no
operation verified here reads it. -/
inductive PortType
  | inactivePort
  | pcie (p : PciePort)
  | twoWire
deriving DecidableEq, Repr

/-- `Port` in `lib.rs` (fields used by the modelled handlers). -/
structure Port where
  id : Nat
  typ : PortType
deriving DecidableEq, Repr

/-- `NvmSubsystemStatus` (mi module): the NVM subsystem status bits held
in `SubsystemHealth`. -/
structure NvmSubsystemStatus where
  atf : Bool
  sfm : Bool
  df : Bool
  rnr : Bool
  rd : Bool
deriving DecidableEq, Repr

/-- `SubsystemHealth` in `lib.rs`. -/
structure SubsystemHealth where
  nss : NvmSubsystemStatus
deriving DecidableEq, Repr

/-- `Namespace` in `lib.rs`. The `nids` descriptor array (a derived
UUID and a command-set identifier) is omitted: no operation verified
here reads it. -/
structure Namespace where
  id : Nat
  size : Nat
  capacity : Nat
  used : Nat
  block_order : Nat
deriving DecidableEq, Repr

/-- `Subsystem` in `lib.rs`: the mutable aggregate state. The immutable
build identity (`info`, `caps`, `mi`, `sn`, `mn`, `fr`) is omitted: no
operation verified here reads it. -/
structure Subsystem where
  ports : List Port
  ctlrs : List Controller
  nsids : Nat
  nss : List Namespace
  health : SubsystemHealth
deriving DecidableEq, Repr

/-- `heapless::Vec::swap_remove`: replace the element at `i` with the
last element and drop the last slot. -/
def swapRemove (l : List α) (i : Nat) : List α :=
  match l.getLast? with
  | none => l
  | some last => (l.set i last).dropLast

/-- `Subsystem::add_namespace` (`lib.rs` lines 583-599): allocate the
next NSID from the `nsids` counter (`checked_add(1)` fails only at
`u32::MAX`), then push the namespace; a full table reports
`NamespaceIdentifierUnavailable` with the counter already advanced. -/
def Subsystem.add_namespace (s : Subsystem) (capacity : Nat) :
    Except SubsystemError Nat × Subsystem :=
  if s.nsids + 1 ≤ u32Max then
    let allocated := s.nsids + 1
    let s' := { s with nsids := allocated }
    let ns : Namespace :=
      { id := allocated, size := capacity, capacity := capacity, used := 0, block_order := 9 }
    if s'.nss.length < MAX_NAMESPACES then
      (.ok allocated, { s' with nss := s'.nss ++ [ns] })
    else
      (.error .namespaceIdentifierUnavailable, s')
  else
    (.error .namespaceIdentifierUnavailable, s)

/-- `Subsystem::remove_namespace` (`lib.rs` lines 601-611): the
broadcast NSID clears the table; otherwise the first namespace with the
given id is swap-removed. -/
def Subsystem.remove_namespace (s : Subsystem) (nsid : Nat) :
    Except SubsystemError Unit × Subsystem :=
  if nsid = u32Max then
    (.ok (), { s with nss := [] })
  else
    match s.nss.findIdx? (fun n => n.id = nsid) with
    | none => (.error .namespaceIdentifierUnavailable, s)
    | some i => (.ok (), { s with nss := swapRemove s.nss i })

/-- `Controller::attach_namespace` (`lib.rs` lines 359-370). -/
def Controller.attach_namespace (c : Controller) (nsid : Nat) :
    Except ControllerError Controller :=
  if c.active_ns.any (fun ns => ns = nsid) then
    .error .namespaceAlreadyAttached
  else if c.active_ns.length < MAX_NAMESPACES then
    .ok { c with active_ns := c.active_ns ++ [nsid] }
  else
    .error .namespaceAttachmentLimitExceeded

/-- `Controller::detach_namespace` (`lib.rs` lines 372-386). -/
def Controller.detach_namespace (c : Controller) (nsid : Nat) :
    Except ControllerError Controller :=
  match c.active_ns.findIdx? (fun ns => ns = nsid) with
  | none => .error .namespaceNotAttached
  | some i => .ok { c with active_ns := swapRemove c.active_ns i }

/-! ## Management endpoint state and the CCS change tracker -/

/-- Modelled from the spec: bit positions of the composite controller
status flags and of the per-controller health-change flags. Test 6 of
spec section 8 fixes `Rdy` at bit 0 and `Ceco` at bit 5
(`Rdy|Ceco = 0x0021`); the remaining positions follow the composite
controller status data structure (bits 0-13 with bit 3 reserved). -/
def ccsFlagRdy : Nat := 0x1

/-- Modelled from the spec: `Ceco` (controller enable change occurred)
is bit 5 of the composite controller status flag set. -/
def ccsFlagCeco : Nat := 0x20

/-- Modelled from the spec: the mask of defined health-status-change /
composite-controller-status flag bits (bits 0-13 minus reserved bit 3). -/
def hscDefinedMask : Nat := 0x3FF7

/-- `ManagementEndpointControllerState` in `lib.rs`: the cached mirror
of one controller (`cc`, `csts`) plus its pending-change flags. -/
structure ManagementEndpointControllerState where
  cc : ControllerConfiguration
  csts : Nat
  chscf : Nat
deriving DecidableEq, Repr

instance : Inhabited ManagementEndpointControllerState :=
  ⟨{ cc := { en := false }, csts := 0, chscf := 0 }⟩

/-- `ManagementEndpoint` in `lib.rs`: one cached mirror per controller
and the composite controller status flag set. -/
structure ManagementEndpoint where
  mecss : List ManagementEndpointControllerState
  ccsf : Nat
deriving DecidableEq, Repr

/-- One iteration of the loop in `ManagementEndpoint::update`
(`dev.rs` lines 1704-1738): gather the change flags for controller `c`,
union them into the per-controller pending flags and (converted) into
the composite set, then refresh the cached mirror. -/
def updateStep (mep : ManagementEndpoint) (c : Controller) : ManagementEndpoint :=
  let mecs := mep.mecss.getD c.id default
  let upd :=
    (if mecs.cc.en != c.cc.en then ccsFlagCeco else 0) |||
    (if mecs.csts.testBit cstsRdyBit != c.csts.testBit cstsRdyBit then ccsFlagRdy else 0)
  let mecs' : ManagementEndpointControllerState :=
    { cc := c.cc, csts := c.csts, chscf := mecs.chscf ||| upd }
  { mecss := mep.mecss.set c.id mecs', ccsf := mep.ccsf ||| upd }

/-- `ManagementEndpoint::update` (`dev.rs` lines 1701-1739). -/
def ManagementEndpoint.update (mep : ManagementEndpoint) (subsys : Subsystem) :
    ManagementEndpoint :=
  subsys.ctlrs.foldl updateStep mep

/-! ## Message framing (`handle_async`, `dev.rs` lines 1741-1818) -/

/-- Modelled from the spec: the 3-byte outer message header (current
`mi.rs` absent from the tree). The first octet packs
`[ROR:1][NMIMT:4][reserved:2][CSI:1]` from bit 7 down to bit 0
(spec section 4.4). -/
structure MessageHeader where
  b0 : Nat
  b1 : Nat
  b2 : Nat
deriving DecidableEq, Repr

/-- Modelled from the spec: `MessageHeader::from_bytes` consumes the
3-byte outer header and returns the remainder. -/
def MessageHeader.fromBytes : List Nat → Option (MessageHeader × List Nat)
  | b0 :: b1 :: b2 :: rest => some (⟨b0, b1, b2⟩, rest)
  | _ => none

/-- Command slot identifier: bit 0 of the first header octet. -/
def MessageHeader.csi (mh : MessageHeader) : Bool := mh.b0.testBit 0

/-- Response-or-request flag: bit 7 of the first header octet. -/
def MessageHeader.ror (mh : MessageHeader) : Bool := mh.b0.testBit 7

/-- The raw 4-bit NMIMT field: bits 3-6 of the first header octet. -/
def MessageHeader.nmimtRaw (mh : MessageHeader) : Nat := (mh.b0 >>> 3) &&& 0xF

/-- Modelled from the spec: the NVMe-MI message types
(0, 1, 2, 4, 5; spec section 4.4). -/
inductive MessageType
  | controlPrimitive
  | nvmeMiCommand
  | nvmeAdminCommand
  | pcieCommand
  | asynchronousEvent
deriving DecidableEq, Repr

/-- Modelled from the spec: decoding the NMIMT field; any value outside
the five defined message types fails to decode. -/
def nmimtOfRaw (n : Nat) : Option MessageType :=
  if n = 0 then some .controlPrimitive
  else if n = 1 then some .nvmeMiCommand
  else if n = 2 then some .nvmeAdminCommand
  else if n = 4 then some .pcieCommand
  else if n = 5 then some .asynchronousEvent
  else none

/-- `MessageHeader::nmimt`: decode the message type of a header. -/
def MessageHeader.nmimt (mh : MessageHeader) : Option MessageType :=
  nmimtOfRaw mh.nmimtRaw

/-- The pre-dispatch stage of `ManagementEndpoint::handle_async`
(`dev.rs` lines 1741-1798): refresh the CCS tracker, then run the
silent-drop gauntlet (integrity-check flag, minimum length, ICV,
header extraction, CSI, ROR, NMIMT decode). The result pairs the
updated endpoint with `none` when the message is dropped without a
response, or with the decoded message type and remaining bytes handed
to the dispatcher. -/
def handleAsync (mep : ManagementEndpoint) (subsys : Subsystem)
    (msg : List Nat) (ic : Bool) :
    ManagementEndpoint × Option (MessageType × List Nat) :=
  let mep := mep.update subsys
  if !ic then (mep, none)
  else if msg.length < 4 then (mep, none)
  else
    let body := msg.take (msg.length - 4)
    let icv := msg.drop (msg.length - 4)
    if icv ≠ icvOf body then (mep, none)
    else
      match MessageHeader.fromBytes body with
      | none => (mep, none)
      | some (mh, rest) =>
        if mh.csi then (mep, none)
        else if mh.ror then (mep, none)
        else
          match mh.nmimt with
          | none => (mep, none)
          | some mt => (mep, some (mt, rest))

/-! ## Constrained admin response bodies -/

/-- `admin_constrain_body` (`dev.rs` lines 847-895): validate the
requested `(dofst, dlen)` window against the unconstrained response
body and return the selected slice. The callers guarantee a non-empty
body (the function asserts it); the checks themselves do not depend on
the assertion. -/
def admin_constrain_body (dofst dlen : Nat) (body : List Nat) :
    Except ResponseStatus (List Nat) :=
  if dofst % 4 ≠ 0 then .error .invalidParameter
  else if body.length ≤ dofst then .error .invalidParameter
  else if dlen % 4 ≠ 0 then .error .invalidParameter
  else if 4096 < dlen then .error .invalidParameter
  else if body.length < dlen ∨ body.length - dlen < dofst then .error .invalidParameter
  else if dlen = 0 then .error .invalidParameter
  else .ok ((body.drop dofst).take dlen)

/-! ## NVM Subsystem Health Status Poll (`dev.rs` lines 146-240) -/

/-- The payload of an NVM Subsystem Health Status Poll response: the
health data structure bytes (`nss`, `sw`, `ctemp`, `pldu`) and the
16-bit composite controller status field. -/
structure HealthPollResponse where
  nss : Nat
  sw : Nat
  ctemp : Nat
  pldu : Nat
  ccsf : Nat
deriving DecidableEq, Repr

/-- The `NvmSubsystemHealthStatusPoll` arm of
`NvmeMiCommandRequestHeader::handle` (`dev.rs` lines 146-240).
`none` models a Rust panic (missing controller or port, a non-PCIe
port, a non-Kelvin or inverted operating range, division by zero);
`some (.error st)` models a handler error that becomes a status frame;
`some (.ok (r, mep'))` is the transmitted response and the endpoint
state after the optional clear of `ccsf` (bit 31 of `dword1`). -/
def nvmSubsystemHealthStatusPoll (mep : ManagementEndpoint) (subsys : Subsystem)
    (dword1 : Nat) (restLen : Nat) :
    Option (Except ResponseStatus (HealthPollResponse × ManagementEndpoint)) :=
  if restLen ≠ 0 then some (.error .invalidCommandSize)
  else
    match subsys.ctlrs.head? with
    | none => none
    | some ctlr =>
      match subsys.ports.find? (fun p => p.id = ctlr.port) with
      | none => none
      | some port =>
        match port.typ with
        | .pcie pprt =>
          if ctlr.capacity < ctlr.spare then some (.error .internalError)
          else if ctlr.temp_range.kind ≠ .kelvin then none
          else if ctlr.temp_range.upper < ctlr.temp_range.lower then none
          else
            let clamped := min (max ctlr.temp ctlr.temp_range.lower) ctlr.temp_range.upper
            let celcius : Int := (clamped : Int) - 273
            let ctemp : Int := if celcius < 0 then celcius + 255 + 1 else celcius
            if ctlr.write_lifespan = 0 then none
            else
              let pdlu := min 255 (100 * ctlr.write_age / ctlr.write_lifespan)
              if ctlr.capacity = 0 then none
              else
                let nssByte :=
                  subsys.health.nss.atf.toNat <<< 7 |||
                  subsys.health.nss.sfm.toNat <<< 6 |||
                  subsys.health.nss.df.toNat <<< 5 |||
                  subsys.health.nss.rnr.toNat <<< 4 |||
                  (decide (pprt.cls ≠ PcieLinkSpeed.inactive)).toNat <<< 3
                let swByte :=
                  1 <<< 5 |||
                  1 <<< 4 |||
                  (!ctlr.ro).toNat <<< 3 |||
                  (!subsys.health.nss.rd).toNat <<< 2 |||
                  (!(decide (ctlr.temp_range.lower ≤ ctlr.temp ∧
                      ctlr.temp ≤ ctlr.temp_range.upper))).toNat <<< 1 |||
                  (!(decide (100 * ctlr.spare / ctlr.capacity <
                      ctlr.spare_range.lower))).toNat
                let r : HealthPollResponse :=
                  { nss := nssByte, sw := swByte, ctemp := (ctemp % 256).toNat,
                    pldu := pdlu, ccsf := mep.ccsf }
                let mep' :=
                  if dword1.testBit 31 then { mep with ccsf := 0 } else mep
                some (.ok (r, mep'))
        | _ => none

/-! ## Configuration Set / Health Status Change (`dev.rs` lines 414-439) -/

/-- The `HealthStatusChange` arm of
`NvmeMiConfigurationSetRequest::handle` (`dev.rs` lines 414-439):
reject trailing bytes, reject masks with undefined flag bits, then
subtract the mask from the composite controller status flag set. -/
def configSetHealthStatusChange (mep : ManagementEndpoint) (dw1 : Nat)
    (restLen : Nat) : Except ResponseStatus ManagementEndpoint :=
  if restLen ≠ 0 then .error .invalidCommandSize
  else if dw1 &&& hscDefinedMask ≠ dw1 then .error .invalidParameter
  else .ok { mep with ccsf := Nat.ldiff mep.ccsf dw1 }

/-! ## Admin Identify, CNS 0x00 (NVM Identify Namespace) -/

/-- Little-endian byte decomposition of a value into `w` bytes. -/
def leBytes : Nat → Nat → List Nat
  | 0, _ => []
  | w + 1, v => (v &&& 0xFF) :: leBytes w (v >>> 8)

/-- The fields of `AdminIdentifyNvmIdentifyNamespaceResponse` that the
handler populates (`dev.rs` lines 1213-1231); every other byte of the
4096-byte structure is zero. -/
structure NvmIdNsFields where
  nsze : Nat
  ncap : Nat
  nuse : Nat
  nsfeat : Nat
  nlbaf : Nat
  flbas : Nat
  mc : Nat
  dpc : Nat
  dps : Nat
  nvmcap : Nat
  lbaf0 : Nat
  lbaf0_lbads : Nat
  lbaf0_rp : Nat
deriving DecidableEq, Repr

/-- The all-zero `Default::default()` field set. -/
def NvmIdNsFields.zero : NvmIdNsFields :=
  { nsze := 0, ncap := 0, nuse := 0, nsfeat := 0, nlbaf := 0, flbas := 0,
    mc := 0, dpc := 0, dps := 0, nvmcap := 0, lbaf0 := 0, lbaf0_lbads := 0,
    lbaf0_rp := 0 }

/-- Modelled from the spec: the 4096-byte encoding of the NVM Identify
Namespace data structure (the codec lives in the absent current
`nvme.rs`). Offsets follow the NVM command set layout referenced by the
spec: NSZE at 0, NCAP at 8, NUSE at 16, NSFEAT/NLBAF/FLBAS/MC/DPC/DPS
at 24-29, NVMCAP (16 bytes) at 48, LBAF0 at 128-131 with LBADS at byte
130. -/
def encodeNvmIdNs (f : NvmIdNsFields) : List Nat :=
  leBytes 8 f.nsze ++ leBytes 8 f.ncap ++ leBytes 8 f.nuse ++
  [f.nsfeat &&& 0xFF, f.nlbaf &&& 0xFF, f.flbas &&& 0xFF,
   f.mc &&& 0xFF, f.dpc &&& 0xFF, f.dps &&& 0xFF] ++
  List.replicate 18 0 ++
  leBytes 16 f.nvmcap ++
  List.replicate 64 0 ++
  leBytes 2 f.lbaf0 ++ [f.lbaf0_lbads &&& 0xFF, f.lbaf0_rp &&& 0xFF] ++
  List.replicate 3964 0

/-- The broadcast-NSID skeleton the handler encodes: default fields
with only `lbaf0_lbads = 9` set (`dev.rs` lines 1182-1186). -/
def nvmIdNsSkeleton : List Nat :=
  encodeNvmIdNs { NvmIdNsFields.zero with lbaf0_lbads := 9 }

/-- The `NvmIdentifyNamespace` arm of `AdminIdentifyRequest::handle`
(`dev.rs` lines 1178-1238). `.ok w` is a transmitted success response
(16-byte admin header with `SuccessfulCompletion`) carrying the
constrained window `w`; `.error st` becomes a 4-byte status frame. -/
def adminIdentifyNvmNs (s : Subsystem) (nsid dofst dlen : Nat) :
    Except ResponseStatus (List Nat) :=
  if nsid = u32Max then
    admin_constrain_body dofst dlen nvmIdNsSkeleton
  else if nsid = 0 ∨ MAX_NAMESPACES < nsid then
    .error .invalidParameter
  else
    match s.nss.get? (nsid - 1) with
    | none => .error .invalidParameter
    | some ns =>
      let active := s.ctlrs.any (fun c => c.active_ns.any (fun x => x = nsid))
      let f : NvmIdNsFields :=
        if active then
          { nsze := ns.size, ncap := ns.capacity, nuse := ns.used,
            nsfeat := (decide (ns.size = ns.capacity)).toNat,
            nlbaf := 0, flbas := 0, mc := 0, dpc := 0, dps := 0,
            nvmcap := 2 ^ ns.block_order * ns.size,
            lbaf0 := 0, lbaf0_lbads := ns.block_order, lbaf0_rp := 0 }
        else NvmIdNsFields.zero
      admin_constrain_body dofst dlen (encodeNvmIdNs f)

/-! ## Fixed-length string codec (`src/wire/string.rs`) -/

/-- `WireString::from` (`string.rs` lines 21-28): `heapless::String`
construction succeeds only when the source fits the capacity `N`; a
longer source is rejected, not truncated. Strings are modelled as their
UTF-8 byte sequences. -/
def wireStringFrom (N : Nat) (s : List Nat) : Option (List Nat) :=
  if s.length ≤ N then some s else none

/-- `WireString::to_writer` (`string.rs` lines 69-78): emit the stored
bytes chained with zeros, taking exactly `N` bytes. -/
def wireStringToWriter (N : Nat) (w : List Nat) : List Nat :=
  (w ++ List.replicate N 0).take N

/-! ## Admin Namespace Attachment (`dev.rs` lines 1569-1698) -/

/-- The attach-or-detach selector (`AdminNamespaceAttachmentSelect`). -/
inductive AttachSel
  | controllerAttach
  | controllerDetach
deriving DecidableEq, Repr

/-- The command-specific status code for a controller error
(`dev.rs` lines 1595-1605). -/
def scOfControllerError : ControllerError → Nat
  | .namespaceAlreadyAttached => 0x18
  | .namespaceNotAttached => 0x1a
  | .namespaceAttachmentLimitExceeded => 0x27

/-- The CQE status of a namespace attachment response. -/
inductive CqeStatus
  | genericSuccess
  | commandSpecific (sc : Nat)
deriving DecidableEq, Repr

/-- One iteration of the controller-list loop in
`AdminNamespaceAttachmentRequest::handle` (`dev.rs` lines 1639-1671):
resolve the controller id, require an I/O controller, apply the
selected action; a failure yields the command-specific status code. -/
def nsAttachStep (sel : AttachSel) (nsid : Nat) (ctlrs : List Controller)
    (cid : Nat) : Except Nat (List Controller) :=
  match ctlrs.get? cid with
  | none => .error 0x1c
  | some ctlr =>
    if ctlr.cntrltype ≠ ControllerType.ioController then .error 0x1c
    else
      match (match sel with
             | .controllerAttach => ctlr.attach_namespace nsid
             | .controllerDetach => ctlr.detach_namespace nsid) with
      | .error e => .error (scOfControllerError e)
      | .ok c' => .ok (ctlrs.set cid c')

/-- The controller-list loop: apply `nsAttachStep` to each listed id in
order, stopping at the first failure and keeping the effects already
applied. -/
def nsAttachLoop (sel : AttachSel) (nsid : Nat) :
    List Controller → List Nat → List Controller × CqeStatus
  | ctlrs, [] => (ctlrs, .genericSuccess)
  | ctlrs, cid :: rest =>
    match nsAttachStep sel nsid ctlrs cid with
    | .error e => (ctlrs, .commandSpecific e)
    | .ok ctlrs' => nsAttachLoop sel nsid ctlrs' rest

/-- The all-success run of the loop over a list of controller ids. -/
def nsAttachAll (sel : AttachSel) (nsid : Nat) :
    List Controller → List Nat → Except Nat (List Controller)
  | ctlrs, [] => .ok ctlrs
  | ctlrs, cid :: rest =>
    match nsAttachStep sel nsid ctlrs cid with
    | .error e => .error e
    | .ok ctlrs' => nsAttachAll sel nsid ctlrs' rest

/-- The CQE of a namespace attachment response (`dev.rs` lines
1675-1693): `cqedw0` echoes the NSID, `dnr` is set iff the status is
not a successful completion. -/
structure NsAttachCqe where
  cqedw0 : Nat
  status : CqeStatus
  dnr : Bool
deriving DecidableEq, Repr

/-- `AdminNamespaceAttachmentRequest::handle` (`dev.rs` lines
1572-1698): validate the padded request size and the NSID, run the
controller-list loop, and build the CQE response from the final
status. -/
def adminNamespaceAttachment (s : Subsystem) (sel : AttachSel) (nsid : Nat)
    (ids : List Nat) (restLen : Nat) :
    Except ResponseStatus (Subsystem × NsAttachCqe) :=
  if restLen ≠ (2047 - ids.length) * 2 then .error .invalidCommandSize
  else if nsid = u32Max then .error .invalidParameter
  else
    let out := nsAttachLoop sel nsid s.ctlrs ids
    .ok ({ s with ctlrs := out.1 },
         { cqedw0 := nsid, status := out.2,
           dnr := decide (out.2 ≠ CqeStatus.genericSuccess) })

/-! ## Shared helper lemmas -/

/-- The constrained-window characterisation of `admin_constrain_body`:
the window is returned exactly when every policy condition holds, and
every rejection is `InvalidParameter`. -/
lemma admin_constrain_body_spec (dofst dlen : Nat) (body : List Nat) :
    ((dofst % 4 = 0 ∧ dofst < body.length ∧ dlen % 4 = 0 ∧ 0 < dlen ∧
        dlen ≤ 4096 ∧ dofst + dlen ≤ body.length) →
      admin_constrain_body dofst dlen body =
        .ok ((body.drop dofst).take dlen)) ∧
    (¬(dofst % 4 = 0 ∧ dofst < body.length ∧ dlen % 4 = 0 ∧ 0 < dlen ∧
        dlen ≤ 4096 ∧ dofst + dlen ≤ body.length) →
      admin_constrain_body dofst dlen body = .error .invalidParameter) := by
  unfold admin_constrain_body
  constructor
  · rintro ⟨c1, c2, c3, c4, c5, c6⟩
    split_ifs with h1 h2 h3 h4 h5 h6 <;> first | rfl | (exfalso; omega)
  · intro hnot
    split_ifs with h1 h2 h3 h4 h5 h6 <;> first | rfl | (exfalso; omega)

lemma leBytes_length (w v : Nat) : (leBytes w v).length = w := by
  induction w generalizing v with
  | zero => rfl
  | succ k ih => simp [leBytes, ih]

lemma encodeNvmIdNs_length (f : NvmIdNsFields) :
    (encodeNvmIdNs f).length = 4096 := by
  simp only [encodeNvmIdNs, List.length_append, leBytes_length,
    List.length_replicate, List.length_cons, List.length_nil]

lemma nvmIdNsSkeleton_length : nvmIdNsSkeleton.length = 4096 :=
  encodeNvmIdNs_length _

lemma icvOf_length (body : List Nat) : (icvOf body).length = 4 := rfl

/-- An NMIMT value outside the five defined message types fails to
decode. -/
lemma nmimtOfRaw_eq_none (n : Nat) (h : n ∉ ([0, 1, 2, 4, 5] : List Nat)) :
    nmimtOfRaw n = none := by
  simp only [List.mem_cons, List.not_mem_nil, or_false, not_or] at h
  obtain ⟨h0, h1, h2, h4, h5⟩ := h
  simp [nmimtOfRaw, h0, h1, h2, h4, h5]

/-- Removing a set of flag bits twice is the same as removing it once. -/
lemma ldiff_ldiff_self (x m : Nat) :
    Nat.ldiff (Nat.ldiff x m) m = Nat.ldiff x m := by
  apply Nat.eq_of_testBit_eq
  intro i
  simp [Nat.testBit_ldiff, Bool.and_assoc]

/-! ## C3 — the constrained-response window policy -/

/-- C3: for every non-empty admin response body of at most 4096 bytes
and every requested pair `(dofst, dlen)`, the shared helper returns the
window `body[dofst .. dofst+dlen]` (of length exactly `dlen`) if and
only if `dofst` is a multiple of 4, `dofst < body.len`, `dlen` is a
multiple of 4, `0 < dlen ≤ 4096` and `dofst + dlen ≤ body.len`; in
every other case it fails with `InvalidParameter`. -/
theorem C3_admin_constrain_window (dofst dlen : Nat) (body : List Nat)
    (_hne : body ≠ []) (_hcap : body.length ≤ 4096) :
    (admin_constrain_body dofst dlen body =
        .ok ((body.drop dofst).take dlen) ∧
        ((body.drop dofst).take dlen).length = dlen ↔
      dofst % 4 = 0 ∧ dofst < body.length ∧ dlen % 4 = 0 ∧ 0 < dlen ∧
        dlen ≤ 4096 ∧ dofst + dlen ≤ body.length) ∧
    (¬(dofst % 4 = 0 ∧ dofst < body.length ∧ dlen % 4 = 0 ∧ 0 < dlen ∧
        dlen ≤ 4096 ∧ dofst + dlen ≤ body.length) →
      admin_constrain_body dofst dlen body = .error .invalidParameter) := by
  obtain ⟨hok, herr⟩ := admin_constrain_body_spec dofst dlen body
  refine ⟨⟨?_, ?_⟩, herr⟩
  · rintro ⟨heq, hlen⟩
    by_contra hnot
    rw [herr hnot] at heq
    exact absurd heq (by simp)
  · intro hconds
    refine ⟨hok hconds, ?_⟩
    simp only [List.length_take, List.length_drop]
    omega

/-- Witness for C3 at a concrete window request. -/
theorem C3_witness :
    admin_constrain_body 4 4 [1, 2, 3, 4, 5, 6, 7, 8] = .ok [5, 6, 7, 8] := by
  have h := ((C3_admin_constrain_window 4 4 [1, 2, 3, 4, 5, 6, 7, 8]
    (by decide) (by decide)).1.mpr (by decide)).1
  simpa using h

/-! ## C8 — the fixed-length string codec -/

/-- C8 (amended): the fixed-length string codec `S<N>` encodes to
exactly `N` bytes, the bytes of `s` zero-padded to `N`, whenever `s`
has at most `N` bytes; a longer source string is rejected when the
`WireString` is constructed (`from` returns an error), not truncated. -/
theorem C8_wire_string_codec (N : Nat) (s : List Nat) :
    (s.length ≤ N →
      wireStringFrom N s = some s ∧
      wireStringToWriter N s = s ++ List.replicate (N - s.length) 0 ∧
      (wireStringToWriter N s).length = N) ∧
    (N < s.length → wireStringFrom N s = none) := by
  constructor
  · intro h
    refine ⟨by simp [wireStringFrom, h], ?_, ?_⟩
    · simp only [wireStringToWriter, List.take_append_eq_append_take,
        List.take_replicate]
      rw [List.take_of_length_le h]
      congr 1
      congr 1
      omega
    · simp only [wireStringToWriter, List.length_take, List.length_append,
        List.length_replicate]
      omega
  · intro h
    simp only [wireStringFrom, ite_eq_right_iff]
    omega

/-- Witness for C8 at concrete strings. -/
theorem C8_witness :
    wireStringFrom 4 [97, 98] = some [97, 98] ∧
    wireStringToWriter 4 [97, 98] = [97, 98, 0, 0] ∧
    wireStringFrom 1 [97, 98] = none := by
  obtain ⟨h1, h2, -⟩ := (C8_wire_string_codec 4 [97, 98]).1 (by decide)
  exact ⟨h1, by rw [h2]; decide, (C8_wire_string_codec 1 [97, 98]).2 (by decide)⟩

/-- Counterexample for C8 as stated: a 3-byte source with capacity 2 is
rejected outright; no truncated 2-byte encoding is produced. -/
theorem C8_counterexample : wireStringFrom 2 [97, 98, 99] = none := by decide

lemma add_namespace_full_eq (s : Subsystem) (cap : Nat)
    (h1 : s.nsids + 1 ≤ u32Max) (h2 : ¬ s.nss.length < MAX_NAMESPACES) :
    s.add_namespace cap =
      (.error .namespaceIdentifierUnavailable, { s with nsids := s.nsids + 1 }) := by
  simp [Subsystem.add_namespace, h1, h2]

lemma add_namespace_ok_eq (s : Subsystem) (cap : Nat)
    (h1 : s.nsids + 1 ≤ u32Max) (h2 : s.nss.length < MAX_NAMESPACES) :
    s.add_namespace cap =
      (.ok (s.nsids + 1),
       { s with nsids := s.nsids + 1,
                nss := s.nss ++ [{ id := s.nsids + 1, size := cap,
                                   capacity := cap, used := 0, block_order := 9 }] }) := by
  simp [Subsystem.add_namespace, h1, h2]

lemma remove_namespace_broadcast_eq (s : Subsystem) :
    s.remove_namespace u32Max = (.ok (), { s with nss := [] }) := by
  simp [Subsystem.remove_namespace]

/-! ## C9 — failed namespace creation still consumes an identifier -/

/-- C9: `add_namespace` is not atomic on failure. When the namespace
table is full (and the counter has not saturated, so the failure is the
table-full path), the call reports `NamespaceIdentifierUnavailable`,
yet the `nsids` counter has been incremented and the table is
unchanged; the next successful creation (here: after a broadcast
removal) returns `nsids + 2`, skipping the consumed identifier. -/
theorem C9_add_namespace_not_atomic (s : Subsystem) (cap : Nat)
    (hfull : s.nss.length = MAX_NAMESPACES) (hov : s.nsids < u32Max) :
    (s.add_namespace cap).1 = .error .namespaceIdentifierUnavailable ∧
    (s.add_namespace cap).2.nsids = s.nsids + 1 ∧
    (s.add_namespace cap).2.nss = s.nss ∧
    (s.nsids + 1 < u32Max → ∀ cap2,
      ((((s.add_namespace cap).2.remove_namespace u32Max).2).add_namespace cap2).1 =
        .ok (s.nsids + 2)) := by
  have hcond : s.nsids + 1 ≤ u32Max := by omega
  have hnf : ¬ s.nss.length < MAX_NAMESPACES := by omega
  rw [add_namespace_full_eq s cap hcond hnf]
  refine ⟨rfl, rfl, rfl, ?_⟩
  intro hov2 cap2
  rw [remove_namespace_broadcast_eq]
  rw [add_namespace_ok_eq _ cap2 (by simpa using hov2)
    (by show ([] : List Namespace).length < MAX_NAMESPACES; decide)]

/-- Witness for C9: a full four-namespace subsystem with counter 7. -/
theorem C9_witness :
    let s : Subsystem :=
      { ports := [], ctlrs := [], nsids := 7,
        nss := [{ id := 4, size := 1, capacity := 1, used := 0, block_order := 9 },
                { id := 5, size := 1, capacity := 1, used := 0, block_order := 9 },
                { id := 6, size := 1, capacity := 1, used := 0, block_order := 9 },
                { id := 7, size := 1, capacity := 1, used := 0, block_order := 9 }],
        health := { nss := { atf := false, sfm := false, df := true,
                             rnr := true, rd := false } } }
    (s.add_namespace 10).1 = .error .namespaceIdentifierUnavailable ∧
    (s.add_namespace 10).2.nsids = 8 ∧
    ((((s.add_namespace 10).2.remove_namespace u32Max).2).add_namespace 5).1 = .ok 9 := by
  intro s
  obtain ⟨h1, h2, h3, h4⟩ := C9_add_namespace_not_atomic s 10 (by decide) (by decide)
  exact ⟨h1, h2, h4 (by decide) 5⟩

/-! ## C4 — the monotonic NSID allocator can issue the broadcast value -/

/-- The subsystem produced by `Subsystem::new`: empty collections and a
zeroed allocator (health defaults per the data model). -/
def subsystemNew : Subsystem :=
  { ports := [], ctlrs := [], nsids := 0, nss := [],
    health := { nss := { atf := false, sfm := false, df := true,
                         rnr := true, rd := false } } }

/-- `n` repetitions of `add_namespace 1` followed by a broadcast
`remove_namespace`, starting from `subsystemNew`. -/
def addRemovePairs : Nat → Subsystem
  | 0 => subsystemNew
  | n + 1 => (((addRemovePairs n).add_namespace 1).2.remove_namespace u32Max).2

lemma addRemovePairs_spec (n : Nat) (h : n ≤ u32Max) :
    (addRemovePairs n).nsids = n ∧ (addRemovePairs n).nss = [] := by
  induction n with
  | zero => exact ⟨rfl, rfl⟩
  | succ k ih =>
    obtain ⟨h1, h2⟩ := ih (by omega)
    have hcond : (addRemovePairs k).nsids + 1 ≤ u32Max := by omega
    have hlen : (addRemovePairs k).nss.length < MAX_NAMESPACES := by
      rw [h2]; decide
    show (((addRemovePairs k).add_namespace 1).2.remove_namespace u32Max).2.nsids = k + 1 ∧
      (((addRemovePairs k).add_namespace 1).2.remove_namespace u32Max).2.nss = []
    rw [add_namespace_ok_eq _ 1 hcond hlen, remove_namespace_broadcast_eq]
    exact ⟨by simp [h1], rfl⟩

/-- C4: the claim that no NSID returned by `add_namespace` is ever the
broadcast value `u32::MAX` fails. After `2^32 - 2` add/remove pairs —
a sequence of public `add_namespace` / `remove_namespace` operations —
the counter sits at `u32::MAX - 1` and the next creation returns the
broadcast NSID `0xFFFFFFFF` itself: the overflow guard only stops the
counter from wrapping past `u32::MAX`, not from issuing it. -/
theorem C4_broadcast_nsid_issued :
    ((addRemovePairs (u32Max - 1)).add_namespace 1).1 = .ok u32Max := by
  have hu : u32Max = 4294967295 := rfl
  obtain ⟨h1, h2⟩ := addRemovePairs_spec (u32Max - 1) (Nat.sub_le _ _)
  have hcond : (addRemovePairs (u32Max - 1)).nsids + 1 ≤ u32Max := by omega
  have hlen : (addRemovePairs (u32Max - 1)).nss.length < MAX_NAMESPACES := by
    rw [h2]; decide
  rw [add_namespace_ok_eq _ 1 hcond hlen]
  show Except.ok ((addRemovePairs (u32Max - 1)).nsids + 1) = Except.ok u32Max
  rw [h1]
  congr 1

/-! ## C10 — Namespace Attachment is not transactional -/

lemma nsAttachLoop_append_fail (sel : AttachSel) (nsid : Nat) (cid : Nat)
    (rest : List Nat) (e : Nat) :
    ∀ (pre : List Nat) (ctlrs ctlrs' : List Controller),
      nsAttachAll sel nsid ctlrs pre = .ok ctlrs' →
      nsAttachStep sel nsid ctlrs' cid = .error e →
      nsAttachLoop sel nsid ctlrs (pre ++ cid :: rest) = (ctlrs', .commandSpecific e) := by
  intro pre
  induction pre with
  | nil =>
    intro ctlrs ctlrs' hpre hfail
    obtain rfl : ctlrs = ctlrs' := by
      simpa [nsAttachAll] using hpre
    simp [nsAttachLoop, hfail]
  | cons p ps ih =>
    intro ctlrs ctlrs' hpre hfail
    unfold nsAttachAll at hpre
    rcases hstep : nsAttachStep sel nsid ctlrs p with e' | c1
    · rw [hstep] at hpre
      exact absurd hpre (by simp)
    · rw [hstep] at hpre
      simp only [List.cons_append]
      unfold nsAttachLoop
      rw [hstep]
      exact ih c1 ctlrs' hpre hfail

/-- C10: Admin Namespace Attachment applies the selected action to each
listed controller in order; when the action fails at some entry (after
a prefix `pre` of successful entries) processing stops: the effects
already applied to the prefix are retained with no rollback, the ids
after the failing one are never examined, and the CQE carries the
command-specific status of that first failure with `DNR` set. -/
theorem C10_ns_attachment_not_transactional (s : Subsystem) (sel : AttachSel)
    (nsid : Nat) (pre : List Nat) (cid : Nat) (rest : List Nat)
    (ctlrs' : List Controller) (e : Nat)
    (hnb : nsid ≠ u32Max)
    (hpre : nsAttachAll sel nsid s.ctlrs pre = .ok ctlrs')
    (hfail : nsAttachStep sel nsid ctlrs' cid = .error e) :
    adminNamespaceAttachment s sel nsid (pre ++ cid :: rest)
        ((2047 - (pre ++ cid :: rest).length) * 2) =
      .ok ({ s with ctlrs := ctlrs' },
           { cqedw0 := nsid, status := .commandSpecific e, dnr := true }) := by
  unfold adminNamespaceAttachment
  rw [if_neg (by simp), if_neg hnb,
    nsAttachLoop_append_fail sel nsid cid rest e pre s.ctlrs ctlrs' hpre hfail]
  simp

/-- Witness for C10: attaching NSID 1 to controllers `[0, 1]` where
controller 0 is an I/O controller and controller 1 is a discovery
controller; the attach to controller 0 is retained, processing stops at
controller 1 with `ControllerListInvalid` (0x1c) and `DNR` set. -/
theorem C10_witness :
    let c0 : Controller :=
      { id := 0, cntrltype := .ioController, port := 0, active_ns := [],
        temp := 293, temp_range := { kind := .kelvin, lower := 213, upper := 400 },
        capacity := 100, spare := 100,
        spare_range := { kind := .percent, lower := 5, upper := 100 },
        write_age := 38, write_lifespan := 100, ro := false,
        cc := { en := false }, csts := 0 }
    let c1 : Controller := { c0 with id := 1, cntrltype := .discovery }
    let s : Subsystem :=
      { ports := [], ctlrs := [c0, c1], nsids := 1,
        nss := [{ id := 1, size := 4, capacity := 4, used := 0, block_order := 9 }],
        health := { nss := { atf := false, sfm := false, df := true,
                             rnr := true, rd := false } } }
    adminNamespaceAttachment s .controllerAttach 1 [0, 1] ((2047 - 2) * 2) =
      .ok ({ s with ctlrs := [{ c0 with active_ns := [1] }, c1] },
           { cqedw0 := 1, status := .commandSpecific 0x1c, dnr := true }) := by
  intro c0 c1 s
  have h := C10_ns_attachment_not_transactional s .controllerAttach 1 [0] 1 []
    [{ c0 with active_ns := [1] }, c1] 0x1c (by decide) (by rfl) (by rfl)
  simpa using h

/-! ## C6 — CTEMP encoding in the NVM Subsystem Health Status Poll -/

/-- C6: for every controller temperature and Kelvin operating range
`[lower, upper]` (with `lower ≤ upper`, as any operating range
satisfies), the CTEMP byte of the NVM Subsystem Health Status Poll
response is the two's-complement 8-bit encoding — the value modulo
256 — of `clamp(temp, lower, upper) - 273`; a negative Celsius value
in `[-256, -1]` therefore wraps to `256 + value`. -/
theorem C6_ctemp_encoding (mep : ManagementEndpoint) (s : Subsystem)
    (d1 : Nat) (ctlr : Controller) (port : Port) (pprt : PciePort)
    (hc : s.ctlrs.head? = some ctlr)
    (hp : s.ports.find? (fun p => p.id = ctlr.port) = some port)
    (hpt : port.typ = .pcie pprt)
    (hsp : ctlr.spare ≤ ctlr.capacity)
    (hk : ctlr.temp_range.kind = .kelvin)
    (hr : ctlr.temp_range.lower ≤ ctlr.temp_range.upper)
    (hlf : ctlr.write_lifespan ≠ 0)
    (hcap : ctlr.capacity ≠ 0) :
    ∃ r mep', nvmSubsystemHealthStatusPoll mep s d1 0 = some (.ok (r, mep')) ∧
      r.ctemp =
        (((min (max ctlr.temp ctlr.temp_range.lower) ctlr.temp_range.upper : Int)
            - 273) % 256).toNat ∧
      (((min (max ctlr.temp ctlr.temp_range.lower) ctlr.temp_range.upper : Int)
          - 273 < 0 →
        (-256 : Int) ≤ (min (max ctlr.temp ctlr.temp_range.lower)
            ctlr.temp_range.upper : Int) - 273 →
        (r.ctemp : Int) =
          256 + ((min (max ctlr.temp ctlr.temp_range.lower)
            ctlr.temp_range.upper : Int) - 273))) := by
  have h1 : ¬ ctlr.capacity < ctlr.spare := by omega
  have h3 : ¬ ctlr.temp_range.upper < ctlr.temp_range.lower := by omega
  have hcast : ((min (max ctlr.temp ctlr.temp_range.lower) ctlr.temp_range.upper : Nat) : Int)
      = min (max (ctlr.temp : Int) (ctlr.temp_range.lower : Int)) (ctlr.temp_range.upper : Int) := by
    push_cast
    rfl
  unfold nvmSubsystemHealthStatusPoll
  simp only [ne_eq, not_true_eq_false, if_false, hc, hp, hpt, h1, h3, hk, hlf, hcap,
    not_false_eq_true, if_true, ite_false, ite_true]
  refine ⟨_, _, rfl, ?_, ?_⟩
  · dsimp only
    rw [hcast]
    set c : Int :=
      min (max (ctlr.temp : Int) (ctlr.temp_range.lower : Int)) (ctlr.temp_range.upper : Int) - 273
    clear_value c
    split_ifs with hneg
    · omega
    · rfl
  · dsimp only
    rw [hcast]
    set c : Int :=
      min (max (ctlr.temp : Int) (ctlr.temp_range.lower : Int)) (ctlr.temp_range.upper : Int) - 273
    clear_value c
    intro hneg hlb
    rw [if_pos hneg]
    omega

/-- Witness for C6, the spec's saturation scenario: operating range
Kelvin `[213, 400]` and temperature 212 yield CTEMP byte `0xC4`. -/
theorem C6_witness :
    let ctlr : Controller :=
      { id := 0, cntrltype := .ioController, port := 0, active_ns := [],
        temp := 212, temp_range := { kind := .kelvin, lower := 213, upper := 400 },
        capacity := 100, spare := 100,
        spare_range := { kind := .percent, lower := 5, upper := 100 },
        write_age := 38, write_lifespan := 100, ro := false,
        cc := { en := false }, csts := 0 }
    let s : Subsystem :=
      { ports := [{ id := 0,
                    typ := .pcie { b := 0, d := 0, f := 0, seg := 0, cls := .gts2p5 } }],
        ctlrs := [ctlr], nsids := 0, nss := [],
        health := { nss := { atf := false, sfm := false, df := true,
                             rnr := true, rd := false } } }
    let mep : ManagementEndpoint := { mecss := [default, default], ccsf := 0 }
    ∃ r mep', nvmSubsystemHealthStatusPoll mep s 0 0 = some (.ok (r, mep')) ∧
      r.ctemp = 0xC4 := by
  intro ctlr s mep
  obtain ⟨r, mep', h1, h2, -⟩ := C6_ctemp_encoding mep s 0 ctlr
    { id := 0, typ := .pcie { b := 0, d := 0, f := 0, seg := 0, cls := .gts2p5 } }
    { b := 0, d := 0, f := 0, seg := 0, cls := .gts2p5 }
    (by rfl) (by rfl) (by rfl) (by decide) (by rfl) (by decide) (by decide) (by decide)
  exact ⟨r, mep', h1, by rw [h2]; decide⟩

/-! ## C7 — Health Status Change clears exactly the masked CCS bits -/

/-- C7: for every valid mask `m` of defined health-status-change flags,
Configuration Set / HealthStatusChange removes exactly the bits of `m`
from `mep.ccsf` and changes nothing else; a following NVM Subsystem
Health Status Poll with the clear-status bit of `dword1` unset reports
`ccsf &&& ~m` and leaves `ccsf` unchanged; and repeating the same Set
is a no-op on the already-cleared bits. -/
theorem C7_health_status_change (mep : ManagementEndpoint) (s : Subsystem)
    (m d1 : Nat) (ctlr : Controller) (port : Port) (pprt : PciePort)
    (hm : m &&& hscDefinedMask = m)
    (hd1 : d1.testBit 31 = false)
    (hc : s.ctlrs.head? = some ctlr)
    (hp : s.ports.find? (fun p => p.id = ctlr.port) = some port)
    (hpt : port.typ = .pcie pprt)
    (hsp : ctlr.spare ≤ ctlr.capacity)
    (hk : ctlr.temp_range.kind = .kelvin)
    (hr : ctlr.temp_range.lower ≤ ctlr.temp_range.upper)
    (hlf : ctlr.write_lifespan ≠ 0)
    (hcap : ctlr.capacity ≠ 0) :
    configSetHealthStatusChange mep m 0 =
      .ok { mep with ccsf := Nat.ldiff mep.ccsf m } ∧
    (∀ i, (Nat.ldiff mep.ccsf m).testBit i =
      (mep.ccsf.testBit i && !(m.testBit i))) ∧
    (∃ r, nvmSubsystemHealthStatusPoll { mep with ccsf := Nat.ldiff mep.ccsf m }
        s d1 0 =
        some (.ok (r, { mep with ccsf := Nat.ldiff mep.ccsf m })) ∧
      r.ccsf = Nat.ldiff mep.ccsf m) ∧
    configSetHealthStatusChange { mep with ccsf := Nat.ldiff mep.ccsf m } m 0 =
      .ok { mep with ccsf := Nat.ldiff mep.ccsf m } := by
  refine ⟨?_, ?_, ?_, ?_⟩
  · simp [configSetHealthStatusChange, hm]
  · intro i
    exact Nat.testBit_ldiff _ _ _
  · have h1 : ¬ ctlr.capacity < ctlr.spare := by omega
    have h3 : ¬ ctlr.temp_range.upper < ctlr.temp_range.lower := by omega
    unfold nvmSubsystemHealthStatusPoll
    simp only [ne_eq, not_true_eq_false, if_false, hc, hp, hpt, h1, h3, hk, hlf, hcap,
      not_false_eq_true, if_true, ite_false, ite_true, hd1, Bool.false_eq_true]
    exact ⟨_, rfl, rfl⟩
  · simp [configSetHealthStatusChange, hm, ldiff_ldiff_self]

/-- Witness for C7: clearing mask `0x21` (`Rdy | Ceco`) from a composite
status of `0x21` leaves zero, as in the spec's scenario 6. -/
theorem C7_witness :
    let ctlr : Controller :=
      { id := 0, cntrltype := .ioController, port := 0, active_ns := [],
        temp := 293, temp_range := { kind := .kelvin, lower := 213, upper := 400 },
        capacity := 100, spare := 100,
        spare_range := { kind := .percent, lower := 5, upper := 100 },
        write_age := 38, write_lifespan := 100, ro := false,
        cc := { en := true }, csts := 1 }
    let s : Subsystem :=
      { ports := [{ id := 0,
                    typ := .pcie { b := 0, d := 0, f := 0, seg := 0, cls := .gts2p5 } }],
        ctlrs := [ctlr], nsids := 0, nss := [],
        health := { nss := { atf := false, sfm := false, df := true,
                             rnr := true, rd := false } } }
    let mep : ManagementEndpoint := { mecss := [default, default], ccsf := 0x21 }
    configSetHealthStatusChange mep 0x21 0 = .ok { mep with ccsf := 0 } ∧
    (∃ r, nvmSubsystemHealthStatusPoll { mep with ccsf := 0 } s 0 0 =
        some (.ok (r, { mep with ccsf := 0 })) ∧ r.ccsf = 0) ∧
    configSetHealthStatusChange { mep with ccsf := 0 } 0x21 0 =
      .ok { mep with ccsf := 0 } := by
  intro ctlr s mep
  obtain ⟨h1, -, h3, h4⟩ := C7_health_status_change mep s 0x21 0 ctlr
    { id := 0, typ := .pcie { b := 0, d := 0, f := 0, seg := 0, cls := .gts2p5 } }
    { b := 0, d := 0, f := 0, seg := 0, cls := .gts2p5 }
    (by decide) (by decide) (by rfl) (by rfl) (by rfl) (by decide) (by rfl)
    (by decide) (by decide) (by decide)
  have hz : Nat.ldiff mep.ccsf 0x21 = 0 := by
    apply Nat.eq_of_testBit_eq
    intro i
    simp [Nat.testBit_ldiff]
  rw [hz] at h1 h3 h4
  exact ⟨h1, h3, h4⟩

/-! ## C5 — broadcast NSID on Identify NVM Namespace -/

/-- C5 (amended): an Admin Identify request with CNS 0x00 and the
broadcast NSID `u32::MAX` is not an unsupported feature path: the
handler returns a success response carrying the constrained window of
the skeleton structure (only `LBAF0.LBADS` set), and never
`InternalError`; only an invalid `(dofst, dlen)` window is rejected,
with `InvalidParameter`. -/
theorem C5_broadcast_identify_succeeds (s : Subsystem) (dofst dlen : Nat) :
    adminIdentifyNvmNs s u32Max dofst dlen ≠ .error .internalError ∧
    (dofst % 4 = 0 → dofst < 4096 → dlen % 4 = 0 → 0 < dlen → dlen ≤ 4096 →
      dofst + dlen ≤ 4096 →
      adminIdentifyNvmNs s u32Max dofst dlen =
        .ok ((nvmIdNsSkeleton.drop dofst).take dlen)) := by
  have hb : adminIdentifyNvmNs s u32Max dofst dlen =
      admin_constrain_body dofst dlen nvmIdNsSkeleton := by
    simp [adminIdentifyNvmNs]
  obtain ⟨hok, herr⟩ := admin_constrain_body_spec dofst dlen nvmIdNsSkeleton
  rw [nvmIdNsSkeleton_length] at hok herr
  constructor
  · rw [hb]
    by_cases hc : dofst % 4 = 0 ∧ dofst < 4096 ∧ dlen % 4 = 0 ∧ 0 < dlen ∧
        dlen ≤ 4096 ∧ dofst + dlen ≤ 4096
    · rw [hok hc]
      simp
    · rw [herr hc]
      simp
  · intro h1 h2 h3 h4 h5 h6
    rw [hb, hok ⟨h1, h2, h3, h4, h5, h6⟩]

/-- Witness for C5: the full window over the broadcast skeleton. -/
theorem C5_witness :
    adminIdentifyNvmNs subsystemNew u32Max 0 4096 = .ok nvmIdNsSkeleton := by
  have h := (C5_broadcast_identify_succeeds subsystemNew 0 4096).2
    (by decide) (by decide) (by decide) (by decide) (by decide) (by decide)
  rw [h, List.drop_zero, List.take_of_length_le (by rw [nvmIdNsSkeleton_length])]

/-- Counterexample for C5 as stated: at the concrete broadcast request
`(nsid, dofst, dlen) = (0xFFFFFFFF, 0, 4096)` the handler transmits a
success response whose payload has byte 130 (`LBAF0.LBADS`) equal to 9;
it does not return `InternalError`. -/
theorem C5_counterexample :
    adminIdentifyNvmNs subsystemNew u32Max 0 4096 = .ok nvmIdNsSkeleton ∧
    nvmIdNsSkeleton.getD 130 0 = 9 ∧
    adminIdentifyNvmNs subsystemNew u32Max 0 4096 ≠ .error .internalError := by
  have hb : adminIdentifyNvmNs subsystemNew u32Max 0 4096 =
      admin_constrain_body 0 4096 nvmIdNsSkeleton := by
    simp [adminIdentifyNvmNs]
  have hok := (admin_constrain_body_spec 0 4096 nvmIdNsSkeleton).1
    (by rw [nvmIdNsSkeleton_length]; decide)
  have hself : (nvmIdNsSkeleton.drop 0).take 4096 = nvmIdNsSkeleton := by
    rw [List.drop_zero, List.take_of_length_le (by rw [nvmIdNsSkeleton_length])]
  rw [hb, hok, hself]
  refine ⟨rfl, by decide, by simp⟩

/-! ## C1 — integrity failures drop silently, after the CCS update -/

/-- C1 (amended): an inbound message whose integrity check fails (the
integrity-check flag is false, the message is shorter than 4 bytes, or
the ICV mismatches) is dropped without a response — but the controller
snapshot-diff has already run: the resulting endpoint state is
`mep.update s`, which is not in general the original `mep`. -/
theorem C1_integrity_failure_drops_after_update (mep : ManagementEndpoint)
    (s : Subsystem) (msg : List Nat) (ic : Bool)
    (h : ic = false ∨ msg.length < 4 ∨
      msg.drop (msg.length - 4) ≠ icvOf (msg.take (msg.length - 4))) :
    handleAsync mep s msg ic = (mep.update s, none) := by
  unfold handleAsync
  rcases h with h | h | h
  · subst h
    simp
  · by_cases hic : ic
    · simp [hic, h]
    · simp [hic]
  · by_cases hic : ic
    · by_cases hlen : msg.length < 4
      · simp [hic, hlen]
      · simp [hic, hlen, h]
    · simp [hic]

/-- A fresh management endpoint for the two controllers. -/
def mepNew : ManagementEndpoint := { mecss := [default, default], ccsf := 0 }

/-- Witness for C1: a message arriving without the integrity-check flag
is dropped with no response. -/
theorem C1_witness :
    handleAsync mepNew subsystemNew [] false = (mepNew.update subsystemNew, none) :=
  C1_integrity_failure_drops_after_update mepNew subsystemNew [] false (Or.inl rfl)

/-- A subsystem whose single controller has just been enabled
(`cc.en = true`, `csts.Rdy` set) while the endpoint cache still holds
the reset state. -/
def c1Sub : Subsystem :=
  { ports := [{ id := 0,
                typ := .pcie { b := 0, d := 0, f := 0, seg := 0, cls := .gts2p5 } }],
    ctlrs := [{ id := 0, cntrltype := .ioController, port := 0, active_ns := [],
                temp := 293, temp_range := { kind := .kelvin, lower := 213, upper := 400 },
                capacity := 100, spare := 100,
                spare_range := { kind := .percent, lower := 5, upper := 100 },
                write_age := 38, write_lifespan := 100, ro := false,
                cc := { en := true }, csts := 1 }],
    nsids := 0, nss := [],
    health := { nss := { atf := false, sfm := false, df := true,
                         rnr := true, rd := false } } }

/-- Counterexample for C1 as stated: with the integrity-check flag
false the call emits no response, yet the `ManagementEndpoint` state is
changed — the snapshot-diff runs before the integrity check and raises
`Ceco | Rdy` (0x21) in `ccsf` and in the controller's pending flags. -/
theorem C1_counterexample :
    (handleAsync mepNew c1Sub [] false).2 = none ∧
    (handleAsync mepNew c1Sub [] false).1 ≠ mepNew ∧
    ((handleAsync mepNew c1Sub [] false).1).ccsf = 0x21 := by decide

/-! ## C2 — unknown NMIMT values drop silently -/

/-- C2 (amended): a request that passes the integrity check and the CSI
and ROR validation but whose NMIMT field holds a value outside
the defined set 0, 1, 2, 4, 5 is dropped silently by `handle_async` at
the NMIMT decode, before dispatch: no response frame of any kind is
emitted. -/
theorem C2_unknown_nmimt_silent_drop (mep : ManagementEndpoint) (s : Subsystem)
    (b0 b1 b2 : Nat) (mid : List Nat)
    (hcsi : b0.testBit 0 = false) (hror : b0.testBit 7 = false)
    (hn : ((b0 >>> 3) &&& 0xF) ∉ ([0, 1, 2, 4, 5] : List Nat)) :
    handleAsync mep s ((b0 :: b1 :: b2 :: mid) ++ icvOf (b0 :: b1 :: b2 :: mid)) true =
      (mep.update s, none) := by
  have hnone : nmimtOfRaw ((b0 >>> 3) &&& 0xF) = none := nmimtOfRaw_eq_none _ hn
  have hlen : ((b0 :: b1 :: b2 :: mid) ++ icvOf (b0 :: b1 :: b2 :: mid)).length =
      mid.length + 7 := by
    simp [icvOf, toLeBytes4]
  have hsub : ((b0 :: b1 :: b2 :: mid) ++ icvOf (b0 :: b1 :: b2 :: mid)).length - 4 =
      (b0 :: b1 :: b2 :: mid).length := by
    rw [hlen]
    simp
  have htake : ((b0 :: b1 :: b2 :: mid) ++ icvOf (b0 :: b1 :: b2 :: mid)).take
      (((b0 :: b1 :: b2 :: mid) ++ icvOf (b0 :: b1 :: b2 :: mid)).length - 4) =
      b0 :: b1 :: b2 :: mid := by
    rw [hsub]
    exact List.take_left _ _
  have hdrop : ((b0 :: b1 :: b2 :: mid) ++ icvOf (b0 :: b1 :: b2 :: mid)).drop
      (((b0 :: b1 :: b2 :: mid) ++ icvOf (b0 :: b1 :: b2 :: mid)).length - 4) =
      icvOf (b0 :: b1 :: b2 :: mid) := by
    rw [hsub]
    exact List.drop_left _ _
  have hge : ¬ ((b0 :: b1 :: b2 :: mid) ++ icvOf (b0 :: b1 :: b2 :: mid)).length < 4 := by
    rw [hlen]
    omega
  unfold handleAsync
  simp only [Bool.not_true, if_false, hge, ite_false, htake, hdrop, ne_eq,
    not_true_eq_false, MessageHeader.fromBytes, MessageHeader.csi, MessageHeader.ror,
    MessageHeader.nmimt, MessageHeader.nmimtRaw, hcsi, hror, hnone, if_true,
    not_false_eq_true, ite_true, Bool.false_eq_true]

/-- The counterexample message for C2: outer header `[0x18, 0, 0]`
(NMIMT = 3, CSI = 0, ROR = 0) with a correct integrity check value. -/
def c2msg : List Nat := [0x18, 0, 0] ++ icvOf [0x18, 0, 0]

/-- Witness for C2: the concrete NMIMT = 3 message is dropped. -/
theorem C2_witness :
    handleAsync mepNew subsystemNew c2msg true = (mepNew.update subsystemNew, none) :=
  C2_unknown_nmimt_silent_drop mepNew subsystemNew 0x18 0 0 []
    (by decide) (by decide) (by decide)

/-- Counterexample for C2 as stated: the NMIMT = 3 request passes the
integrity check (its last four bytes are the ICV of its body) and has
CSI = 0 and ROR = 0, yet `handle_async` emits nothing at all — in
particular no `InvalidCommandOpcode` error frame. -/
theorem C2_counterexample :
    (handleAsync mepNew subsystemNew c2msg true).2 = none ∧
    c2msg.drop (c2msg.length - 4) = icvOf (c2msg.take (c2msg.length - 4)) ∧
    (MessageHeader.mk 0x18 0 0).csi = false ∧
    (MessageHeader.mk 0x18 0 0).ror = false ∧
    (MessageHeader.mk 0x18 0 0).nmimtRaw = 3 := by decide

end NvmeMiDev
